import Mathlib

/-!
Verification of the signature-compatibility checker in
gomock/internal/calldo/validate.go (package calldo).

The Go code compares two reflected function types: `doFunc` is the
substitute (delegate) function handed to `Call.Do`, and `callFunc` is the
declared (mocked method) signature.  We embed the fragment of Go
reflection the checker uses: a type has a kind; slices and maps expose an
element type and maps a key type; types compare by identity; there is a
convertibility predicate.  Machine-word details never matter here, so
types are symbolic values.
-/

/-- Kinds of the Go reflect types that can occur in the embedding
(reflect.Kind restricted to the constructors of GoType below). -/
inductive Kind where
  | int
  | int64
  | float64
  | string
  | bool
  | iface
  | slice
  | map
  | struct
deriving DecidableEq, Repr

/-- A reflected Go type, restricted to the shapes the validator inspects:
primitives, interface types carrying their method set, slices, maps and
opaque named structs. -/
inductive GoType where
  | int : GoType
  | int64 : GoType
  | float64 : GoType
  | string : GoType
  | bool : GoType
  | iface (methods : List String) : GoType
  | slice (elem : GoType) : GoType
  | mapT (key elem : GoType) : GoType
  | structT (name : String) : GoType
deriving DecidableEq, Repr

/-- reflect.Type.Kind. -/
def GoType.kind : GoType → Kind
  | .int => .int
  | .int64 => .int64
  | .float64 => .float64
  | .string => .string
  | .bool => .bool
  | .iface _ => .iface
  | .slice _ => .slice
  | .mapT _ _ => .map
  | .structT _ => .struct

/-- reflect.Type.Key, total via Option: defined for map types only.
Go panics on other kinds; the validator only calls it on maps. -/
def GoType.keyOf : GoType → Option GoType
  | .mapT k _ => some k
  | _ => none

/-- reflect.Type.Elem, total via Option: defined for slice and map types.
Go panics on other kinds; the validator only calls it on slices/maps. -/
def GoType.elemOf : GoType → Option GoType
  | .slice e => some e
  | .mapT _ v => some v
  | _ => none

/-- The method set a type offers for interface satisfaction.  Of the
types in the embedding only interface types carry methods. -/
def GoType.methodSet : GoType → List String
  | .iface ms => ms
  | _ => []

/-- Whether a type provides every method of the given interface method
set (Go interface satisfaction for the embedded types). -/
def GoType.implementsM (t : GoType) (ms : List String) : Bool :=
  ms.all (fun m => (t.methodSet).contains m)

/-- reflect.Type.ConvertibleTo, modelled for the embedded types by the
Go conversion rules: every type converts to itself; any type converts to
an interface it implements; the numeric types interconvert; integer
types convert to string (rune-string conversion).  Everything else,
in particular slices or maps with different component types, does not
convert. -/
def GoType.convertibleTo (t u : GoType) : Bool :=
  if t = u then true
  else
    match t, u with
    | t, .iface ms => t.implementsM ms
    | .int, .int64 => true
    | .int, .float64 => true
    | .int64, .int => true
    | .int64, .float64 => true
    | .float64, .int => true
    | .float64, .int64 => true
    | .int, .string => true
    | .int64, .string => true
    | _, _ => false

/-- A Go function signature as reflect presents it: the list of
parameter types (for a variadic function the last one is the slice type
of the variadic parameter), the variadic flag, and the return types. -/
structure FuncSig where
  ins : List GoType
  variadic : Bool
  outs : List GoType
deriving DecidableEq, Repr

/-- The distinct failure shapes a single argument comparison can
produce, one constructor per distinct error construction in the Go
source.  reflectPanic stands for the reflect panic that a Key/Elem call
on a kind without that component would raise; the validator never
reaches it. -/
inductive ArgErr where
  | notConvertible (expected got : GoType)
  | kindMismatch (expected got : Kind)
  | typeMismatch (expected got : GoType)
  | mapKey (e : ArgErr)
  | mapKeyType (expected got : GoType)
  | mapElem (e : ArgErr)
  | mapElemType (expected got : GoType)
  | reflectPanic
deriving DecidableEq, Repr

/-- The failure shapes of full signature validation, one constructor per
distinct error construction in ValidateInputAndOutputSig: input arity,
the variadic position, a wrapped input argument error, return arity, a
wrapped return argument error. -/
inductive VErr where
  | arityIn (expected got : Nat)
  | variadicArg (pos : Nat) (expected got : GoType)
  | inputArg (pos : Nat) (e : ArgErr)
  | arityOut (expected got : Nat)
  | returnArg (pos : Nat) (e : ArgErr)
deriving DecidableEq, Repr

/-- validateInterfaceArg: the Do argument must be convertible to the
interface-typed Call argument. -/
def validateInterfaceArg (doArg callArg : GoType) : Except ArgErr Unit :=
  if !(doArg.convertibleTo callArg) then
    Except.error (ArgErr.notConvertible callArg doArg)
  else
    Except.ok ()

/-- The first switch of validateMapArg: compare the key types, with
interface leniency when the declared key is an interface. -/
def validateMapKey (doKey callKey : GoType) : Except ArgErr Unit :=
  match callKey.kind with
  | Kind.iface =>
    match validateInterfaceArg doKey callKey with
    | Except.error e => Except.error (ArgErr.mapKey e)
    | Except.ok _ => Except.ok ()
  | _ =>
    if doKey ≠ callKey then Except.error (ArgErr.mapKeyType callKey doKey)
    else Except.ok ()

/-- The second switch of validateMapArg: compare the element types, with
interface leniency when the declared element is an interface. -/
def validateMapElem (doElem callElem : GoType) : Except ArgErr Unit :=
  match callElem.kind with
  | Kind.iface =>
    match validateInterfaceArg doElem callElem with
    | Except.error e => Except.error (ArgErr.mapElem e)
    | Except.ok _ => Except.ok ()
  | _ =>
    if doElem ≠ callElem then Except.error (ArgErr.mapElemType callElem doElem)
    else Except.ok ()

/-- validateMapArg: key check first, then element check.  The Key/Elem
accesses are Option-valued; none corresponds to the reflect panic Go
would raise when the arguments are not map types. -/
def validateMapArg (doArg callArg : GoType) : Option (Except ArgErr Unit) :=
  match callArg.keyOf, doArg.keyOf with
  | some callKey, some doKey =>
    match validateMapKey doKey callKey with
    | Except.error e => some (Except.error e)
    | Except.ok _ =>
      match callArg.elemOf, doArg.elemOf with
      | some callElem, some doElem =>
        match validateMapElem doElem callElem with
        | Except.error e => some (Except.error e)
        | Except.ok _ => some (Except.ok ())
      | _, _ => none
  | _, _ => none

/-- validateArg: interface Call arguments take the convertibility check;
otherwise kinds must agree, map types get the map check, and every other
kind requires type identity. -/
def validateArg (doArg callArg : GoType) : Except ArgErr Unit :=
  match callArg.kind with
  | Kind.iface => validateInterfaceArg doArg callArg
  | _ =>
    if callArg.kind ≠ doArg.kind then
      Except.error (ArgErr.kindMismatch callArg.kind doArg.kind)
    else
      match callArg.kind with
      | Kind.map =>
        match validateMapArg doArg callArg with
        | some r => r
        | none => Except.error ArgErr.reflectPanic
      | _ =>
        if doArg ≠ callArg then Except.error (ArgErr.typeMismatch callArg doArg)
        else Except.ok ()

/-- validateVariadicArg: at index lastIdx-1, either the Do parameter
type equals the Call parameter type, or the Do parameter must be a
slice, the Call parameter element an interface, and the Do element
convertible to it.  Out-of-range access or a missing element type (a
reflect panic in Go, unreachable through the validator) yields false. -/
def validateVariadicArg (lastIdx : Nat) (doFunc callFunc : FuncSig) : Bool :=
  match doFunc.ins.get? (lastIdx - 1), callFunc.ins.get? (lastIdx - 1) with
  | some doArgT, some callArgT =>
    if doArgT = callArgT then true
    else if doArgT.kind ≠ Kind.slice then false
    else
      match callArgT.elemOf with
      | some callElem =>
        if callElem.kind ≠ Kind.iface then false
        else
          match doArgT.elemOf with
          | some doElem => doElem.convertibleTo callElem
          | none => false
      | none => false
  | _, _ => false

/-- The input loop of ValidateInputAndOutputSig over (Do, Call) pairs,
wrapping the first failure with its position. -/
def validateInputs : Nat → List (GoType × GoType) → Except VErr Unit
  | _, [] => Except.ok ()
  | i, (doA, callA) :: rest =>
    match validateArg doA callA with
    | Except.error e => Except.error (VErr.inputArg i e)
    | Except.ok _ => validateInputs (i + 1) rest

/-- The return loop of ValidateInputAndOutputSig over (Do, Call) pairs,
wrapping the first failure with its position. -/
def validateOutputs : Nat → List (GoType × GoType) → Except VErr Unit
  | _, [] => Except.ok ()
  | i, (doA, callA) :: rest =>
    match validateArg doA callA with
    | Except.error e => Except.error (VErr.returnArg i e)
    | Except.ok _ => validateOutputs (i + 1) rest

/-- The part of ValidateInputAndOutputSig after the variadic step: the
positional input loop up to lastIdx, the return arity check, and the
return loop. -/
def validateTail (doFunc callFunc : FuncSig) (lastIdx : Nat) : Except VErr Unit :=
  match validateInputs 0 ((doFunc.ins.take lastIdx).zip (callFunc.ins.take lastIdx)) with
  | Except.error e => Except.error e
  | Except.ok _ =>
    if doFunc.outs.length ≠ callFunc.outs.length then
      Except.error (VErr.arityOut callFunc.outs.length doFunc.outs.length)
    else
      validateOutputs 0 (doFunc.outs.zip callFunc.outs)

/-- ValidateInputAndOutputSig: input arity, then the variadic parameter
when the Call signature is variadic (excluding that position from the
loop on success), then the positional inputs, the return arity and the
returns. -/
def ValidateInputAndOutputSig (doFunc callFunc : FuncSig) : Except VErr Unit :=
  if doFunc.ins.length ≠ callFunc.ins.length then
    Except.error (VErr.arityIn callFunc.ins.length doFunc.ins.length)
  else
    if callFunc.variadic then
      if validateVariadicArg callFunc.ins.length doFunc callFunc then
        validateTail doFunc callFunc (callFunc.ins.length - 1)
      else
        Except.error (VErr.variadicArg (callFunc.ins.length - 1)
          (callFunc.ins.getD (callFunc.ins.length - 1) GoType.int)
          (doFunc.ins.getD (callFunc.ins.length - 1) GoType.int))
    else
      validateTail doFunc callFunc callFunc.ins.length

example :
    ValidateInputAndOutputSig
      ⟨[GoType.int], false, [GoType.bool]⟩
      ⟨[GoType.int], false, [GoType.bool]⟩ = Except.ok () := by rfl

example :
    ValidateInputAndOutputSig
      ⟨[GoType.slice GoType.int], false, [GoType.bool]⟩
      ⟨[GoType.slice (GoType.iface [])], true, [GoType.bool]⟩ = Except.ok () := by rfl

example :
    ValidateInputAndOutputSig
      ⟨[GoType.string], false, [GoType.bool]⟩
      ⟨[GoType.int], false, [GoType.bool]⟩ =
      Except.error (VErr.inputArg 0 (ArgErr.kindMismatch Kind.int Kind.string)) := by rfl

example :
    ValidateInputAndOutputSig
      ⟨[GoType.mapT GoType.string GoType.int], false, [GoType.bool]⟩
      ⟨[GoType.mapT (GoType.iface []) GoType.int], false, [GoType.bool]⟩ =
      Except.ok () := by rfl

/-! ## Helper predicates over the error shapes and the input phase -/

/-- Whether an argument error is the exact-type mismatch of the generic
matcher (the error the spec taxonomy calls TypeMismatch). -/
def ArgErr.isTypeMismatch : ArgErr → Bool
  | .typeMismatch _ _ => true
  | _ => false

/-- Whether an argument error is qualified as a map key failure. -/
def ArgErr.isMapKeyErr : ArgErr → Bool
  | .mapKey _ => true
  | .mapKeyType _ _ => true
  | _ => false

/-- Whether an argument error is qualified as a map element failure. -/
def ArgErr.isMapElemErr : ArgErr → Bool
  | .mapElem _ => true
  | .mapElemType _ _ => true
  | _ => false

/-- The acceptance condition of one map slot (key or element): when the
declared slot type is an interface the substitute slot must be
convertible to it, otherwise the two must be identical. -/
def mapSlotOK (declT subT : GoType) : Bool :=
  if declT.kind = Kind.iface then subT.convertibleTo declT else decide (subT = declT)

/-- The error a failing map key slot produces. -/
def keyErrOf (declT subT : GoType) : ArgErr :=
  if declT.kind = Kind.iface then ArgErr.mapKey (ArgErr.notConvertible declT subT)
  else ArgErr.mapKeyType declT subT

/-- The error a failing map element slot produces. -/
def elemErrOf (declT subT : GoType) : ArgErr :=
  if declT.kind = Kind.iface then ArgErr.mapElem (ArgErr.notConvertible declT subT)
  else ArgErr.mapElemType declT subT

/-- The index bound of the positional input loop: the variadic position,
when present, is excluded. -/
def effLastIdx (callFunc : FuncSig) : Nat :=
  if callFunc.variadic then callFunc.ins.length - 1 else callFunc.ins.length

/-- Whether the whole input phase (variadic step and positional input
loop) accepts. -/
def passesInputPhase (doFunc callFunc : FuncSig) : Bool :=
  (if callFunc.variadic then validateVariadicArg callFunc.ins.length doFunc callFunc
   else true)
  && (match validateInputs 0
        ((doFunc.ins.take (effLastIdx callFunc)).zip (callFunc.ins.take (effLastIdx callFunc))) with
      | Except.ok _ => true
      | Except.error _ => false)

/-! ## The ordered check list the validator refines (traversal order) -/

/-- The first failure of an ordered list of check outcomes, success when
none fails. -/
def firstErr : List (Option VErr) → Except VErr Unit
  | [] => Except.ok ()
  | some e :: _ => Except.error e
  | none :: rest => firstErr rest

/-- The outcomes of the positional input checks, in increasing index
order. -/
def inputChecks : Nat → List (GoType × GoType) → List (Option VErr)
  | _, [] => []
  | i, (doA, callA) :: rest =>
    (match validateArg doA callA with
     | Except.error e => some (VErr.inputArg i e)
     | Except.ok _ => none) :: inputChecks (i + 1) rest

/-- The outcomes of the positional return checks, in increasing index
order. -/
def outputChecks : Nat → List (GoType × GoType) → List (Option VErr)
  | _, [] => []
  | i, (doA, callA) :: rest =>
    (match validateArg doA callA with
     | Except.error e => some (VErr.returnArg i e)
     | Except.ok _ => none) :: outputChecks (i + 1) rest

/-- All checks of one validation in traversal order: input arity, the
variadic step, the positional inputs, return arity, the returns. -/
def orderedChecks (doFunc callFunc : FuncSig) : List (Option VErr) :=
  (if doFunc.ins.length ≠ callFunc.ins.length then
     some (VErr.arityIn callFunc.ins.length doFunc.ins.length)
   else none)
  :: (if callFunc.variadic then
        (if validateVariadicArg callFunc.ins.length doFunc callFunc then none
         else
           some (VErr.variadicArg (callFunc.ins.length - 1)
             (callFunc.ins.getD (callFunc.ins.length - 1) GoType.int)
             (doFunc.ins.getD (callFunc.ins.length - 1) GoType.int)))
      else none)
  :: (inputChecks 0
        ((doFunc.ins.take (effLastIdx callFunc)).zip (callFunc.ins.take (effLastIdx callFunc)))
      ++ (if doFunc.outs.length ≠ callFunc.outs.length then
            some (VErr.arityOut callFunc.outs.length doFunc.outs.length)
          else none)
      :: outputChecks 0 (doFunc.outs.zip callFunc.outs))

/-! ## Shared lemmas -/

theorem convertibleTo_refl (t : GoType) : t.convertibleTo t = true := by
  simp [GoType.convertibleTo]

theorem validateInterfaceArg_refl (t : GoType) :
    validateInterfaceArg t t = Except.ok () := by
  simp [validateInterfaceArg, convertibleTo_refl]

theorem validateMapKey_eq (doKey callKey : GoType) :
    validateMapKey doKey callKey =
      (if mapSlotOK callKey doKey then Except.ok ()
       else Except.error (keyErrOf callKey doKey)) := by
  unfold validateMapKey mapSlotOK keyErrOf
  by_cases hk : callKey.kind = Kind.iface
  · rw [hk]
    simp only [if_pos hk]
    cases hc : doKey.convertibleTo callKey <;>
      simp [validateInterfaceArg, hc]
  · have : validateMapKey doKey callKey =
        (if doKey ≠ callKey then Except.error (ArgErr.mapKeyType callKey doKey)
         else Except.ok ()) := by
      unfold validateMapKey
      cases h : callKey.kind <;> simp_all
    simp only [if_neg hk]
    by_cases he : doKey = callKey <;> simp_all [validateMapKey]

theorem validateMapElem_eq (doElem callElem : GoType) :
    validateMapElem doElem callElem =
      (if mapSlotOK callElem doElem then Except.ok ()
       else Except.error (elemErrOf callElem doElem)) := by
  unfold mapSlotOK elemErrOf
  by_cases hk : callElem.kind = Kind.iface
  · rw [hk]
    simp only [if_pos hk]
    cases hc : doElem.convertibleTo callElem <;>
      simp [validateMapElem, hk, validateInterfaceArg, hc]
  · simp only [if_neg hk]
    have hbranch : validateMapElem doElem callElem =
        (if doElem ≠ callElem then Except.error (ArgErr.mapElemType callElem doElem)
         else Except.ok ()) := by
      unfold validateMapElem
      cases h : callElem.kind <;> simp_all
    by_cases he : doElem = callElem <;> simp_all

/-- Closed form of validateMapArg on two map types: the key slot is
checked first, then the element slot, each with interface leniency. -/
theorem validateMapArg_mapT_eq (dk dv ck cv : GoType) :
    validateMapArg (GoType.mapT dk dv) (GoType.mapT ck cv) =
      some (if mapSlotOK ck dk = false then Except.error (keyErrOf ck dk)
            else if mapSlotOK cv dv = false then Except.error (elemErrOf cv dv)
            else Except.ok ()) := by
  unfold validateMapArg
  simp only [GoType.keyOf, GoType.elemOf, validateMapKey_eq, validateMapElem_eq]
  cases h1 : mapSlotOK ck dk <;> cases h2 : mapSlotOK cv dv <;> simp

theorem validateMapArg_self (k v : GoType) :
    validateMapArg (GoType.mapT k v) (GoType.mapT k v) = some (Except.ok ()) := by
  rw [validateMapArg_mapT_eq]
  have hk : mapSlotOK k k = true := by
    unfold mapSlotOK
    by_cases h : k.kind = Kind.iface <;> simp [h, convertibleTo_refl]
  have hv : mapSlotOK v v = true := by
    unfold mapSlotOK
    by_cases h : v.kind = Kind.iface <;> simp [h, convertibleTo_refl]
  simp [hk, hv]

theorem validateArg_refl (a : GoType) : validateArg a a = Except.ok () := by
  cases a <;>
    simp [validateArg, GoType.kind, validateInterfaceArg, convertibleTo_refl,
      validateMapArg_self]

theorem validateInputs_self (l : List GoType) (i : Nat) :
    validateInputs i (l.zip l) = Except.ok () := by
  induction l generalizing i with
  | nil => rfl
  | cons a rest ih =>
    simp only [List.zip_cons_cons, validateInputs, validateArg_refl]
    exact ih (i + 1)

theorem validateOutputs_self (l : List GoType) (i : Nat) :
    validateOutputs i (l.zip l) = Except.ok () := by
  induction l generalizing i with
  | nil => rfl
  | cons a rest ih =>
    simp only [List.zip_cons_cons, validateOutputs, validateArg_refl]
    exact ih (i + 1)

theorem validateVariadicArg_self (S : FuncSig) (h : S.ins ≠ []) :
    validateVariadicArg S.ins.length S S = true := by
  have hlen : 0 < S.ins.length := List.length_pos.mpr h
  unfold validateVariadicArg
  cases hg : S.ins.get? (S.ins.length - 1) with
  | none =>
    have := List.get?_eq_none.mp hg
    omega
  | some t => simp [hg]

theorem firstErr_inputChecks_append (ps : List (GoType × GoType)) (i : Nat)
    (k : List (Option VErr)) :
    firstErr (inputChecks i ps ++ k) =
      (match validateInputs i ps with
       | Except.error e => Except.error e
       | Except.ok _ => firstErr k) := by
  induction ps generalizing i with
  | nil => simp [inputChecks, validateInputs]
  | cons p rest ih =>
    obtain ⟨d, c⟩ := p
    cases h : validateArg d c <;>
      simp [inputChecks, validateInputs, h, firstErr, ih]

theorem firstErr_outputChecks (ps : List (GoType × GoType)) (i : Nat) :
    firstErr (outputChecks i ps) = validateOutputs i ps := by
  induction ps generalizing i with
  | nil => rfl
  | cons p rest ih =>
    obtain ⟨d, c⟩ := p
    cases h : validateArg d c <;>
      simp [outputChecks, validateOutputs, h, firstErr, ih]

/-- Characterization of validateArg when the declared type is an
interface: success is exactly convertibility, failure carries the
notConvertible error. -/
theorem validateArg_iface_eq (doArg : GoType) (ms : List String) :
    validateArg doArg (GoType.iface ms) =
      (if doArg.convertibleTo (GoType.iface ms) then Except.ok ()
       else Except.error (ArgErr.notConvertible (GoType.iface ms) doArg)) := by
  cases h : doArg.convertibleTo (GoType.iface ms) <;>
    simp [validateArg, GoType.kind, validateInterfaceArg, h]

/-- Characterization of validateArg when the declared type is neither an
interface nor a map: success is exactly type identity. -/
theorem validateArg_strict_iff (doArg callArg : GoType)
    (h1 : callArg.kind ≠ Kind.iface) (h2 : callArg.kind ≠ Kind.map) :
    (validateArg doArg callArg = Except.ok () ↔ doArg = callArg) := by
  cases callArg
  case iface ms => exact absurd rfl h1
  case mapT k v => exact absurd rfl h2
  all_goals
    cases doArg <;>
      simp only [validateArg, GoType.kind] <;>
      (try split) <;> simp_all

theorem validateTail_self (S : FuncSig) (n : Nat) :
    validateTail S S n = Except.ok () := by
  unfold validateTail
  simp [validateInputs_self, validateOutputs_self]

theorem validateTail_eq_firstErr (d c : FuncSig) (n : Nat) :
    validateTail d c n =
      firstErr (inputChecks 0 ((d.ins.take n).zip (c.ins.take n))
        ++ (if d.outs.length ≠ c.outs.length then
              some (VErr.arityOut c.outs.length d.outs.length)
            else none)
        :: outputChecks 0 (d.outs.zip c.outs)) := by
  rw [firstErr_inputChecks_append]
  unfold validateTail
  cases hi : validateInputs 0 ((d.ins.take n).zip (c.ins.take n)) with
  | error e => simp
  | ok u =>
    by_cases h4 : d.outs.length = c.outs.length <;>
      simp [h4, firstErr, firstErr_outputChecks]

theorem keyErrOf_ne_reflectPanic (a b : GoType) :
    keyErrOf a b ≠ ArgErr.reflectPanic := by
  unfold keyErrOf
  by_cases h : a.kind = Kind.iface <;> simp [h]

theorem elemErrOf_ne_reflectPanic (a b : GoType) :
    elemErrOf a b ≠ ArgErr.reflectPanic := by
  unfold elemErrOf
  by_cases h : a.kind = Kind.iface <;> simp [h]

/-! ## Claim theorems -/

/-- Claim C1 (amended): variadic matching succeeds when the substitute
last parameter type subType equals the declared variadic parameter type
(the sequence type over declaredElem) exactly; otherwise subType must be
of Sequence kind and the declared element type declaredElem must be of
Interface kind (failing if either condition does not hold), and the
check then succeeds if and only if the substitute element type subElem
is convertible to declaredElem. -/
theorem C1_variadic_rule (lastIdx : Nat) (doFunc callFunc : FuncSig)
    (subT declT : GoType)
    (hsub : doFunc.ins.get? (lastIdx - 1) = some subT)
    (hdecl : callFunc.ins.get? (lastIdx - 1) = some declT) :
    (validateVariadicArg lastIdx doFunc callFunc = true ↔
      (subT = declT ∨
        (subT.kind = Kind.slice ∧
          ∃ declElem, declT.elemOf = some declElem ∧ declElem.kind = Kind.iface ∧
            ∃ subElem, subT.elemOf = some subElem ∧
              subElem.convertibleTo declElem = true))) := by
  unfold validateVariadicArg
  rw [hsub, hdecl]
  by_cases heq : subT = declT
  · simp [heq]
  · simp only [if_neg heq]
    cases subT <;> simp only [GoType.kind] <;>
      try (simp [heq]; done)
    rename_i e
    cases hd : declT.elemOf with
    | none => simp [heq]
    | some de =>
      by_cases hk : de.kind = Kind.iface <;> simp [heq, hk, GoType.elemOf]

/-- Claim C1 counterexample: with declared variadic element interface
type interface\x7b\x7d and substitute parameter type slice of int, the
substitute parameter differs from the declared element type and the
substitute element int is not of Interface kind, so the claim as stated
demands failure; yet the check succeeds.  Moreover the declared element
type is not convertible to the substitute element type, so the claimed
success condition fails as well. -/
theorem C1_counterexample :
    validateVariadicArg 1
      ⟨[GoType.slice GoType.int], false, [GoType.bool]⟩
      ⟨[GoType.slice (GoType.iface [])], true, [GoType.bool]⟩ = true
    ∧ GoType.slice GoType.int ≠ GoType.iface []
    ∧ GoType.kind GoType.int ≠ Kind.iface
    ∧ GoType.convertibleTo (GoType.iface []) GoType.int = false :=
  ⟨rfl, by decide, by decide, rfl⟩

/-- Witness for the amended variadic rule: at declared
func(...interface\x7b\x7d) and substitute func(slice of int) the rule
concludes that the check succeeds. -/
theorem C1_variadic_rule_witness :
    validateVariadicArg 1
      ⟨[GoType.slice GoType.int], false, [GoType.bool]⟩
      ⟨[GoType.slice (GoType.iface [])], true, [GoType.bool]⟩ = true :=
  (C1_variadic_rule 1
      ⟨[GoType.slice GoType.int], false, [GoType.bool]⟩
      ⟨[GoType.slice (GoType.iface [])], true, [GoType.bool]⟩
      (GoType.slice GoType.int) (GoType.slice (GoType.iface [])) rfl rfl).mpr
    (Or.inr ⟨rfl, GoType.iface [], rfl, rfl, GoType.int, rfl, rfl⟩)

/-- Claim C2: a declared variadic parameter of element type E is
satisfied by a substitute whose corresponding parameter is an ordinary
sequence of E; in particular declared variadic int with substitute
sequence of int validates successfully, and declared variadic
interface\x7b\x7d with substitute sequence of int validates
successfully. -/
theorem C2_variadic_sequence_ok :
    (∀ (E : GoType) (outs : List GoType),
      ValidateInputAndOutputSig ⟨[GoType.slice E], false, outs⟩
        ⟨[GoType.slice E], true, outs⟩ = Except.ok ())
    ∧ ValidateInputAndOutputSig ⟨[GoType.slice GoType.int], false, [GoType.bool]⟩
        ⟨[GoType.slice GoType.int], true, [GoType.bool]⟩ = Except.ok ()
    ∧ ValidateInputAndOutputSig ⟨[GoType.slice GoType.int], false, [GoType.bool]⟩
        ⟨[GoType.slice (GoType.iface [])], true, [GoType.bool]⟩ = Except.ok () := by
  refine ⟨?_, rfl, rfl⟩
  intro E outs
  have hv : validateVariadicArg 1 ⟨[GoType.slice E], false, outs⟩
      ⟨[GoType.slice E], true, outs⟩ = true := by
    unfold validateVariadicArg
    simp
  unfold ValidateInputAndOutputSig
  simp [hv, validateTail, validateInputs, validateOutputs_self]

/-- Claim C3 counterexample: declared func(int) bool against substitute
func(string) bool does fail at input position 0, but with the
kind-mismatch error (the kinds int and string differ), which is not the
TypeMismatch error the claim names; by the spec taxonomy a failure of
differing kinds is a KindMismatch. -/
theorem C3_counterexample :
    ValidateInputAndOutputSig ⟨[GoType.string], false, [GoType.bool]⟩
        ⟨[GoType.int], false, [GoType.bool]⟩ =
      Except.error (VErr.inputArg 0 (ArgErr.kindMismatch Kind.int Kind.string))
    ∧ ArgErr.isTypeMismatch (ArgErr.kindMismatch Kind.int Kind.string) = false :=
  ⟨rfl, rfl⟩

/-- Claim C3 (amended): for declared signature func(int) bool and
substitute signature func(string) bool, validation fails with a
KindMismatch failure at input position 0, naming expected kind int and
actual kind string. -/
theorem C3_kind_mismatch_at_0 :
    ValidateInputAndOutputSig ⟨[GoType.string], false, [GoType.bool]⟩
        ⟨[GoType.int], false, [GoType.bool]⟩ =
      Except.error (VErr.inputArg 0 (ArgErr.kindMismatch Kind.int Kind.string)) :=
  rfl

/-- Claim C4: at a position whose declared type is of Interface kind,
validation succeeds if and only if the substitute type is convertible to
the declared interface type; a non-convertible substitute type is
rejected. -/
theorem C4_interface_convertibility (doArg callArg : GoType)
    (h : callArg.kind = Kind.iface) :
    (validateArg doArg callArg = Except.ok () ↔
      doArg.convertibleTo callArg = true) := by
  cases callArg <;> simp [GoType.kind] at h
  case iface ms =>
    rw [validateArg_iface_eq]
    cases hc : doArg.convertibleTo (GoType.iface ms) <;> simp [hc]

/-- Witness for C4 at the concrete interface position: substitute int
against declared interface\x7b\x7d. -/
theorem C4_interface_convertibility_witness :
    GoType.kind (GoType.iface []) = Kind.iface
    ∧ (validateArg GoType.int (GoType.iface []) = Except.ok () ↔
        GoType.convertibleTo GoType.int (GoType.iface []) = true) :=
  ⟨rfl, C4_interface_convertibility GoType.int (GoType.iface []) rfl⟩

/-- Claim C5: when both types at a position are of Mapping kind, the key
slot succeeds by convertibility when the declared key type is an
Interface kind and requires exact identity otherwise; the element slot
is checked the same way; the key is checked before the element, the
first failing slot determines the error, and key failures carry the map
key qualifier while element failures carry the map element
qualifier. -/
theorem C5_map_rule (dk dv ck cv : GoType) :
    validateMapArg (GoType.mapT dk dv) (GoType.mapT ck cv) =
      some (if mapSlotOK ck dk = false then Except.error (keyErrOf ck dk)
            else if mapSlotOK cv dv = false then Except.error (elemErrOf cv dv)
            else Except.ok ())
    ∧ ArgErr.isMapKeyErr (keyErrOf ck dk) = true
    ∧ ArgErr.isMapElemErr (elemErrOf cv dv) = true := by
  refine ⟨validateMapArg_mapT_eq dk dv ck cv, ?_, ?_⟩
  · unfold keyErrOf
    by_cases h : ck.kind = Kind.iface <;> simp [h, ArgErr.isMapKeyErr]
  · unfold elemErrOf
    by_cases h : cv.kind = Kind.iface <;> simp [h, ArgErr.isMapElemErr]

/-- Claim C6: at a position whose declared type is of a non-interface,
non-mapping kind, validation succeeds exactly when the substitute type
is identical to the declared type; in particular a substitute type that
is convertible but not identical is rejected. -/
theorem C6_strict_identity (doArg callArg : GoType)
    (h1 : callArg.kind ≠ Kind.iface) (h2 : callArg.kind ≠ Kind.map) :
    (validateArg doArg callArg = Except.ok () ↔ doArg = callArg)
    ∧ (doArg.convertibleTo callArg = true → doArg ≠ callArg →
        validateArg doArg callArg ≠ Except.ok ()) := by
  refine ⟨validateArg_strict_iff doArg callArg h1 h2, ?_⟩
  intro hconv hne hok
  exact hne ((validateArg_strict_iff doArg callArg h1 h2).mp hok)

/-- Witness for C6: int64 is convertible to int but not identical, and
the int position rejects it; likewise shown through the identity
characterization at a sequence position with differing element type. -/
theorem C6_strict_identity_witness :
    GoType.kind GoType.int ≠ Kind.iface
    ∧ GoType.kind GoType.int ≠ Kind.map
    ∧ GoType.convertibleTo GoType.int64 GoType.int = true
    ∧ validateArg GoType.int64 GoType.int ≠ Except.ok ()
    ∧ (validateArg (GoType.slice GoType.int64) (GoType.slice GoType.int) = Except.ok ()
        ↔ GoType.slice GoType.int64 = GoType.slice GoType.int) :=
  ⟨by decide, by decide, rfl,
    (C6_strict_identity GoType.int64 GoType.int (by decide) (by decide)).2 rfl (by decide),
    (C6_strict_identity (GoType.slice GoType.int64) (GoType.slice GoType.int)
      (by decide) (by decide)).1⟩

/-- Claim C7: when the substitute parameter count differs from the
declared parameter count (a trailing variadic counting as one slot),
validation fails with the input arity mismatch naming both counts; and
when the whole input phase passes but the return counts differ,
validation fails with the return arity mismatch naming both counts. -/
theorem C7_arity (doFunc callFunc : FuncSig) :
    (doFunc.ins.length ≠ callFunc.ins.length →
      ValidateInputAndOutputSig doFunc callFunc =
        Except.error (VErr.arityIn callFunc.ins.length doFunc.ins.length))
    ∧ (doFunc.ins.length = callFunc.ins.length →
       passesInputPhase doFunc callFunc = true →
       doFunc.outs.length ≠ callFunc.outs.length →
       ValidateInputAndOutputSig doFunc callFunc =
         Except.error (VErr.arityOut callFunc.outs.length doFunc.outs.length)) := by
  constructor
  · intro h
    unfold ValidateInputAndOutputSig
    simp [h]
  · intro h1 h2 h3
    rw [passesInputPhase, Bool.and_eq_true] at h2
    obtain ⟨hv, hi⟩ := h2
    have hinputs : validateInputs 0
        ((doFunc.ins.take (effLastIdx callFunc)).zip
          (callFunc.ins.take (effLastIdx callFunc))) = Except.ok () := by
      cases hval : validateInputs 0
          ((doFunc.ins.take (effLastIdx callFunc)).zip
            (callFunc.ins.take (effLastIdx callFunc))) with
      | error e => rw [hval] at hi; simp at hi
      | ok u => rfl
    unfold ValidateInputAndOutputSig validateTail
    rw [if_neg (by simp [h1])]
    cases hvar : callFunc.variadic with
    | false =>
      have he : effLastIdx callFunc = callFunc.ins.length := by
        simp [effLastIdx, hvar]
      rw [he, List.take_length] at hinputs
      simp [hvar, hinputs, h3]
    | true =>
      rw [hvar] at hv
      simp only [if_true] at hv
      have he : effLastIdx callFunc = callFunc.ins.length - 1 := by
        simp [effLastIdx, hvar]
      rw [he] at hinputs
      simp [hvar, hv, hinputs, h3]

/-- Witness for C7: a substitute with two parameters against a declared
single-parameter signature fails with the input arity error, and a
substitute with two return values against a declared single-return
signature fails with the return arity error. -/
theorem C7_arity_witness :
    (FuncSig.ins ⟨[GoType.int, GoType.int], false, [GoType.bool]⟩).length ≠
      (FuncSig.ins ⟨[GoType.int], false, [GoType.bool]⟩).length
    ∧ ValidateInputAndOutputSig ⟨[GoType.int, GoType.int], false, [GoType.bool]⟩
        ⟨[GoType.int], false, [GoType.bool]⟩ = Except.error (VErr.arityIn 1 2)
    ∧ passesInputPhase ⟨[GoType.int], false, [GoType.bool, GoType.int]⟩
        ⟨[GoType.int], false, [GoType.bool]⟩ = true
    ∧ ValidateInputAndOutputSig ⟨[GoType.int], false, [GoType.bool, GoType.int]⟩
        ⟨[GoType.int], false, [GoType.bool]⟩ = Except.error (VErr.arityOut 1 2) :=
  ⟨by decide,
   (C7_arity ⟨[GoType.int, GoType.int], false, [GoType.bool]⟩
     ⟨[GoType.int], false, [GoType.bool]⟩).1 (by decide),
   rfl,
   (C7_arity ⟨[GoType.int], false, [GoType.bool, GoType.int]⟩
     ⟨[GoType.int], false, [GoType.bool]⟩).2 rfl rfl (by decide)⟩

/-- Claim C8: validation returns exactly the first failure of the fixed
traversal order captured by orderedChecks (input arity, then the
variadic step when the declared signature is variadic, then the
positional inputs in increasing index order, then return arity, then
the return positions in increasing index order); it never aggregates
failures, and input-argument failures use a constructor distinct from
return-value failures. -/
theorem C8_first_failure_order (doFunc callFunc : FuncSig) :
    ValidateInputAndOutputSig doFunc callFunc =
      firstErr (orderedChecks doFunc callFunc)
    ∧ (∀ (i j : Nat) (e f : ArgErr), VErr.inputArg i e ≠ VErr.returnArg j f) := by
  constructor
  · unfold ValidateInputAndOutputSig orderedChecks
    by_cases h1 : doFunc.ins.length = callFunc.ins.length
    · have hno : ¬(doFunc.ins.length ≠ callFunc.ins.length) := by simp [h1]
      rw [if_neg hno, if_neg hno]
      cases hv : callFunc.variadic with
      | false =>
        have heff : effLastIdx callFunc = callFunc.ins.length := by
          simp [effLastIdx, hv]
        rw [heff]
        simp only [Bool.false_eq_true, if_false, firstErr]
        rw [validateTail_eq_firstErr]
      | true =>
        have heff : effLastIdx callFunc = callFunc.ins.length - 1 := by
          simp [effLastIdx, hv]
        rw [heff]
        cases hvv : validateVariadicArg callFunc.ins.length doFunc callFunc with
        | false =>
          simp only [Bool.false_eq_true, eq_self_iff_true, if_true, if_false, firstErr]
        | true =>
          simp only [eq_self_iff_true, if_true, firstErr]
          rw [validateTail_eq_firstErr]
    · have hne : doFunc.ins.length ≠ callFunc.ins.length := h1
      rw [if_pos hne, if_pos hne]
      simp only [firstErr]
  · intro i j e f h
    exact VErr.noConfusion h

/-- Claim C9: validating any signature against itself succeeds.  The
hypothesis that a variadic signature has a nonempty parameter list is
the reflect invariant of Go function types: a variadic function always
carries its variadic slice parameter, so every representable signature
satisfies it. -/
theorem C9_self_validation (S : FuncSig) (h : S.variadic = true → S.ins ≠ []) :
    ValidateInputAndOutputSig S S = Except.ok () := by
  unfold ValidateInputAndOutputSig
  rw [if_neg (show ¬(S.ins.length ≠ S.ins.length) by simp)]
  cases hv : S.variadic with
  | false =>
    simp only [Bool.false_eq_true, if_false]
    exact validateTail_self S S.ins.length
  | true =>
    rw [if_pos (validateVariadicArg_self S (h hv))]
    exact validateTail_self S (S.ins.length - 1)

/-- Witness for C9 on a concrete variadic signature. -/
theorem C9_self_validation_witness :
    ((⟨[GoType.slice GoType.int], true, [GoType.bool]⟩ : FuncSig).variadic = true →
      (⟨[GoType.slice GoType.int], true, [GoType.bool]⟩ : FuncSig).ins ≠ [])
    ∧ ValidateInputAndOutputSig ⟨[GoType.slice GoType.int], true, [GoType.bool]⟩
        ⟨[GoType.slice GoType.int], true, [GoType.bool]⟩ = Except.ok () :=
  ⟨by decide, C9_self_validation ⟨[GoType.slice GoType.int], true, [GoType.bool]⟩ (by decide)⟩

/-- Claim C10: whenever the generic matcher has established that the
substitute kind equals the declared kind and the declared kind is Map,
the mapping matcher is defined: its Option-valued key and element
lookups never hit the none branch, and the generic matcher never
returns the reflect-panic marker there. -/
theorem C10_map_lookups_defined (doArg callArg : GoType)
    (h1 : doArg.kind = callArg.kind) (h2 : callArg.kind = Kind.map) :
    (validateMapArg doArg callArg).isSome = true
    ∧ validateArg doArg callArg ≠ Except.error ArgErr.reflectPanic := by
  cases callArg <;> simp [GoType.kind] at h2
  rename_i ck cv
  rw [show GoType.kind (GoType.mapT ck cv) = Kind.map from rfl] at h1
  cases doArg <;> simp [GoType.kind] at h1
  rename_i dk dv
  constructor
  · rw [validateMapArg_mapT_eq]
    rfl
  · simp only [validateArg, GoType.kind, validateMapArg_mapT_eq]
    cases hk : mapSlotOK ck dk <;> cases he : mapSlotOK cv dv <;>
      simp [keyErrOf_ne_reflectPanic, elemErrOf_ne_reflectPanic]

/-- Witness for C10 at declared map with interface key against a
substitute map with string key. -/
theorem C10_map_lookups_defined_witness :
    GoType.kind (GoType.mapT GoType.string GoType.int) =
      GoType.kind (GoType.mapT (GoType.iface []) GoType.int)
    ∧ GoType.kind (GoType.mapT (GoType.iface []) GoType.int) = Kind.map
    ∧ (validateMapArg (GoType.mapT GoType.string GoType.int)
        (GoType.mapT (GoType.iface []) GoType.int)).isSome = true
    ∧ validateArg (GoType.mapT GoType.string GoType.int)
        (GoType.mapT (GoType.iface []) GoType.int) ≠ Except.error ArgErr.reflectPanic :=
  ⟨rfl, rfl,
   (C10_map_lookups_defined (GoType.mapT GoType.string GoType.int)
     (GoType.mapT (GoType.iface []) GoType.int) rfl rfl).1,
   (C10_map_lookups_defined (GoType.mapT GoType.string GoType.int)
     (GoType.mapT (GoType.iface []) GoType.int) rfl rfl).2⟩

/-- Witness for C2: the general variadic-sequence rule applied at
element type string and an empty return list. -/
theorem C2_variadic_sequence_ok_witness :
    ValidateInputAndOutputSig ⟨[GoType.slice GoType.string], false, []⟩
      ⟨[GoType.slice GoType.string], true, []⟩ = Except.ok () :=
  C2_variadic_sequence_ok.1 GoType.string []

/-- Witness for C5: the map rule applied at declared key
interface\x7b\x7d against substitute key string yields the map key
qualified error shape. -/
theorem C5_map_rule_witness :
    ArgErr.isMapKeyErr (keyErrOf (GoType.iface []) GoType.string) = true :=
  (C5_map_rule GoType.string GoType.int (GoType.iface []) GoType.int).2.1

/-- Witness for C8: the traversal-order refinement applied at a concrete
pair of signatures. -/
theorem C8_first_failure_order_witness :
    ValidateInputAndOutputSig ⟨[GoType.int], false, [GoType.bool]⟩
        ⟨[GoType.string], false, [GoType.bool]⟩ =
      firstErr (orderedChecks ⟨[GoType.int], false, [GoType.bool]⟩
        ⟨[GoType.string], false, [GoType.bool]⟩) :=
  (C8_first_failure_order ⟨[GoType.int], false, [GoType.bool]⟩
    ⟨[GoType.string], false, [GoType.bool]⟩).1
